import Mathlib

/-!
Verification of the settings-resolution and URL-normalization logic of the
`pc_lib` helper library (`pc_lib/pc_lib_utility.py`), modelled as a shallow
embedding.  Strings are modelled as `List Char`; the filesystem as a total map
from path strings to file contents; process exits and uncaught exceptions as
an explicit `Outcome` type.
-/

/-- Convert a Lean string literal to the `List Char` representation used
throughout the development. -/
def strToL (s : String) : List Char := s.data

/-- `str.lower()` on a string (ASCII-adequate, via `Char.toLower`, matching
Python's behaviour on the ASCII URLs this library handles). -/
def toLowerL (s : List Char) : List Char := s.map Char.toLower

/-- Fuel-driven worker for `replaceAll`.  At each position, if the (non-empty)
pattern matches there, it is replaced and scanning resumes after the
replacement, exactly like Python's `str.replace` (left-to-right,
non-overlapping).  The fuel is an upper bound on the number of steps; with
`fuel = s.length` it never runs out. -/
def replaceAllFuel (pat rep : List Char) : Nat → List Char → List Char
  | 0, s => s
  | _ + 1, [] => []
  | fuel + 1, c :: cs =>
    if pat.isPrefixOf (c :: cs) && !pat.isEmpty then
      rep ++ replaceAllFuel pat rep fuel ((c :: cs).drop pat.length)
    else
      c :: replaceAllFuel pat rep fuel cs

/-- Python's `s.replace(pat, rep)`: replace every occurrence of `pat` in `s`
by `rep`, scanning left to right without overlap. -/
def replaceAll (pat rep s : List Char) : List Char :=
  replaceAllFuel pat rep s.length s

/-- Python's `s.rstrip(c)` for a single character: drop every trailing `c`. -/
def rstrip (s : List Char) (c : Char) : List Char :=
  (s.reverse.dropWhile (fun x => x == c)).reverse

/-- `PrismaCloudUtility.normalize_api_base` (pc_lib_utility.py lines 137-147):
`None`/empty input gives `None`; otherwise lower-case, replace the substrings
`app`→`api` and `redlock`→`prismacloud`, remove the substrings `http://` and
`https://`, and strip trailing `/` characters (in that order). -/
def normalize_api_base (api : Option (List Char)) : Option (List Char) :=
  match api with
  | none => none
  | some s =>
    if s.isEmpty then none
    else
      some (rstrip
        (replaceAll (strToL "https://") []
          (replaceAll (strToL "http://") []
            (replaceAll (strToL "redlock") (strToL "prismacloud")
              (replaceAll (strToL "app") (strToL "api")
                (toLowerL s))))) '/')

/-- `PrismaCloudUtility.normalize_api_compute_base` (lines 151-159): as
`normalize_api_base` but with no `app`/`redlock` substitution. -/
def normalize_api_compute_base (api_compute : Option (List Char)) : Option (List Char) :=
  match api_compute with
  | none => none
  | some s =>
    if s.isEmpty then none
    else
      some (rstrip
        (replaceAll (strToL "https://") []
          (replaceAll (strToL "http://") []
            (toLowerL s))) '/')

/-- Drop a leading `http://` or `https://` scheme, when present (prefix-only
removal, as opposed to the removal of every occurrence). -/
def dropScheme (s : List Char) : List Char :=
  if (strToL "http://").isPrefixOf s then s.drop 7
  else if (strToL "https://").isPrefixOf s then s.drop 8
  else s

/-- The normalization as C1 words it: "returns the input lower-cased, with
`http://` and `https://` prefixes stripped, trailing `/` characters stripped,
and the literal substrings `app` replaced by `api` and `redlock` replaced by
`prismacloud` (simple substring replace)", taking the operations in the order
listed. -/
def normalize_api_base_claimed (api : Option (List Char)) : Option (List Char) :=
  match api with
  | none => none
  | some s =>
    if s.isEmpty then none
    else
      some (replaceAll (strToL "redlock") (strToL "prismacloud")
        (replaceAll (strToL "app") (strToL "api")
          (rstrip (dropScheme (toLowerL s)) '/')))

/-- C1's description of `normalize_api_compute_base`: identical but with no
`app`/`redlock` substitution. -/
def normalize_api_compute_base_claimed (api : Option (List Char)) : Option (List Char) :=
  match api with
  | none => none
  | some s =>
    if s.isEmpty then none
    else some (rstrip (dropScheme (toLowerL s)) '/')

/-- The amended description of `normalize_api_base`: lower-case, apply the
substring substitutions `app`→`api` then `redlock`→`prismacloud`, then remove
every occurrence of `http://` and then of `https://` (not only a leading one),
then strip trailing `/`. -/
def normalize_api_base_amended_desc (api : Option (List Char)) : Option (List Char) :=
  match api with
  | none => none
  | some s =>
    if s.isEmpty then none
    else
      some (rstrip
        (replaceAll (strToL "https://") []
          (replaceAll (strToL "http://") []
            (replaceAll (strToL "redlock") (strToL "prismacloud")
              (replaceAll (strToL "app") (strToL "api")
                (toLowerL s))))) '/')

/-- The amended description of `normalize_api_compute_base`: as the amended
`normalize_api_base` but with no substring substitution. -/
def normalize_api_compute_base_amended_desc (api : Option (List Char)) : Option (List Char) :=
  match api with
  | none => none
  | some s =>
    if s.isEmpty then none
    else
      some (rstrip
        (replaceAll (strToL "https://") []
          (replaceAll (strToL "http://") []
            (toLowerL s))) '/')

/-!  JSON values, Python-style failures, and the filesystem model. -/

/-- JSON values as produced by Python's `json.load`.  Numbers are modelled as
integers (the settings files at stake only carry the integer version field). -/
inductive JVal where
  | jnull : JVal
  | jbool : Bool → JVal
  | jnum : Int → JVal
  | jstr : List Char → JVal
  | jarr : List JVal → JVal
  | jobj : List (List Char × JVal) → JVal

/-- Uncaught Python exceptions relevant to this library. -/
inductive PyErr where
  | keyError : PyErr
  | typeError : PyErr
  | eofError : PyErr
deriving DecidableEq

/-- Result of running a piece of the library: a normal return value, a process
exit via `error_and_exit` (carrying the printed status code and the actual
process exit status), or an uncaught Python exception. -/
inductive Outcome (α : Type) where
  | ok : α → Outcome α
  | exit : Nat → Nat → Outcome α
  | raise : PyErr → Outcome α

/-- Sequencing that short-circuits on exits and uncaught exceptions. -/
def Outcome.bind {α β : Type} : Outcome α → (α → Outcome β) → Outcome β
  | .ok a, f => f a
  | .exit c s, _ => .exit c s
  | .raise e, _ => .raise e

/-- `PrismaCloudUtility.error_and_exit` (lines 301-311): prints the given
status code and messages, then calls `sys.exit(1)` — the process exit status
is always 1, whatever code was printed. -/
def error_and_exit {α : Type} (error_code : Nat) : Outcome α :=
  .exit error_code 1

/-- Lift a Python-level `Except` (raised or returned) into an `Outcome`. -/
def liftExc {α : Type} : Except PyErr α → Outcome α
  | .ok a => .ok a
  | .error e => .raise e

/-- First-match lookup in an association list (Python `dict` access order). -/
def lookupA : List (List Char × JVal) → List Char → Option JVal
  | [], _ => none
  | (k', v) :: rest, k => if k' = k then some v else lookupA rest k

/-- Python `d[k] = v` on a `dict` modelled as an association list: replace the
first binding of `k`, or append a new one. -/
def setA : List (List Char × JVal) → List Char → JVal → List (List Char × JVal)
  | [], k, v => [(k, v)]
  | (k', v') :: rest, k, v =>
    if k' = k then (k, v) :: rest else (k', v') :: setA rest k v

/-- Python subscripting `v[k]` with a string key: a `KeyError` on a mapping
without the key, a `TypeError` on a non-mapping. -/
def jGet (v : JVal) (k : List Char) : Except PyErr JVal :=
  match v with
  | .jobj fields =>
    match lookupA fields k with
    | some x => .ok x
    | none => .error .keyError
  | _ => .error .typeError

/-- Python `k in v` with a string key: membership test on a mapping, a
`TypeError` on the non-mapping values that can reach this library's checks. -/
def jHasKey (v : JVal) (k : List Char) : Except PyErr Bool :=
  match v with
  | .jobj fields => .ok (lookupA fields k).isSome
  | _ => .error .typeError

/-- Python `d[k] = v` at the `JVal` level.  Only ever applied to mappings in
this development (`jHasKey` has already raised on anything else). -/
def jSet (v : JVal) (k : List Char) (x : JVal) : JVal :=
  match v with
  | .jobj fields => .jobj (setA fields k x)
  | other => other

/-- Python truthiness of a JSON-loaded value (`if not settings:`). -/
def truthy : JVal → Bool
  | .jnull => false
  | .jbool b => b
  | .jnum n => n != 0
  | .jstr s => !s.isEmpty
  | .jarr l => !l.isEmpty
  | .jobj l => !l.isEmpty

/-- Python `x != 4` where `x` came from JSON: only the integer 4 compares
equal; any other value (string, mapping, null, ...) is unequal. -/
def jIsNum (x : JVal) (k : Int) : Bool :=
  match x with
  | .jnum n => n == k
  | _ => false

/-- What a path resolves to on disk: no file, a file whose contents are not
well-formed JSON, or a file parsing to a JSON value. -/
inductive FileData where
  | absent : FileData
  | invalid : FileData
  | json : JVal → FileData

/-- `os.path.isfile`-style existence test on a `FileData`. -/
def FileData.isFile : FileData → Bool
  | .absent => false
  | _ => true

/-- The filesystem: a total map from path strings to `FileData`. -/
def FS : Type := List Char → FileData

/-- POSIX `os.path.join(a, b)` for the shapes used here: an absolute second
component wins; otherwise the components are joined with a `/`. -/
def pathJoin (a b : List Char) : List Char :=
  if b.head? = some '/' then b else a ++ '/' :: b

/-- `PrismaCloudUtility.DEFAULT_SETTINGS_FILE_NAME`. -/
def DEFAULT_SETTINGS_FILE_NAME : List Char := strToL "pc-settings.conf"

/-- `PrismaCloudUtility.DEFAULT_SETTINGS_FILE_VERSION`. -/
def DEFAULT_SETTINGS_FILE_VERSION : Int := 4

/-- `PrismaCloudUtility.user_or_default_settings_file` (lines 116-133), with
`os.getcwd()` passed explicitly as `cwd`: `None` gives the default file name
joined to the working directory; a name containing the path separator `/` is
used verbatim; any other name is joined to the working directory. -/
def user_or_default_settings_file (cwd : List Char) : Option (List Char) → List Char
  | none => pathJoin cwd DEFAULT_SETTINGS_FILE_NAME
  | some name => if '/' ∈ name then name else pathJoin cwd name

/-- The key under which the OS stores a path `p` named from working directory
`cwd`: relative paths are resolved against `cwd` (as both `os.path.isfile` and
`open` do), absolute ones stand alone — i.e. `os.path.join(cwd, p)`. -/
def resolvedKey (cwd p : List Char) : List Char := pathJoin cwd p

/-- `PrismaCloudUtility.read_json_file` (lines 197-206): joins the name to the
working directory, then `open` + `json.load`; any exception is caught and
turned into `error_and_exit(500, ...)`. -/
def read_json_file (fs : FS) (cwd file_name : List Char) : Outcome JVal :=
  match fs (pathJoin cwd file_name) with
  | .absent => error_and_exit 500
  | .invalid => error_and_exit 500
  | .json v => .ok v

/-- `PrismaCloudUtility.write_json_file` (lines 210-222): joins the name to
the working directory and writes the value there (the `json.dumps`/`json.load`
serialization round-trip is modelled as the identity, and the write is modelled
as succeeding). -/
def write_json_file (fs : FS) (cwd file_name : List Char) (data_to_write : JVal) : FS :=
  fun p => if p = pathJoin cwd file_name then .json data_to_write else fs p

/-- The settings-file version key. -/
def verK : List Char := strToL "settings_file_version"

def apiBaseK : List Char := strToL "apiBase"
def usernameK : List Char := strToL "username"
def passwordK : List Char := strToL "password"
def apiComputeK : List Char := strToL "api_compute"
def caBundleK : List Char := strToL "ca_bundle"

/-- `PrismaCloudUtility.read_settings_file` (lines 90-99): resolve the file
name, `error_and_exit(400)` if no file is there, load it via `read_json_file`
(which exits with 500 on a parse failure), `error_and_exit(500)` if the loaded
value is falsy, subscript it with `settings_file_version` (which raises on a
missing key or a non-mapping), `error_and_exit(500)` on a version other than
the expected 4, and otherwise return the loaded value. -/
def read_settings_file (fs : FS) (cwd : List Char) (settings_file_name : Option (List Char)) : Outcome JVal :=
  let name := user_or_default_settings_file cwd settings_file_name
  if (fs (resolvedKey cwd name)).isFile then
    (read_json_file fs cwd name).bind fun settings =>
      if truthy settings then
        match jGet settings verK with
        | .error e => .raise e
        | .ok x =>
          if jIsNum x DEFAULT_SETTINGS_FILE_VERSION then .ok settings
          else error_and_exit 500
      else error_and_exit 500
  else error_and_exit 400

/-- The parsed command-line arguments (argparse namespace from
`get_arg_parser`, lines 31-66): the string options default to `None`, and
`--yes` is a boolean defaulting to false. -/
structure Args where
  username : Option (List Char)
  password : Option (List Char)
  api : Option (List Char)
  api_compute : Option (List Char)
  ca_bundle : Option (List Char)
  config_file : Option (List Char)
  yes : Bool

/-- A Python value that is a string or `None`, as a JSON value. -/
def optJ : Option (List Char) → JVal
  | none => .jnull
  | some s => .jstr s

/-- `PrismaCloudUtility.write_settings_file` (lines 103-112): resolve the
target, build the settings mapping (version stamped, URLs normalized,
credentials and CA bundle verbatim) and write it as JSON. -/
def write_settings_file (args : Args) (fs : FS) (cwd : List Char) : FS :=
  let settings_file_name := user_or_default_settings_file cwd args.config_file
  write_json_file fs cwd settings_file_name (.jobj
    [ (verK, .jnum DEFAULT_SETTINGS_FILE_VERSION),
      (apiBaseK, optJ (normalize_api_base args.api)),
      (usernameK, optJ args.username),
      (passwordK, optJ args.password),
      (apiComputeK, optJ (normalize_api_compute_base args.api_compute)),
      (caBundleK, optJ args.ca_bundle) ])

/-- `PrismaCloudUtility.get_settings` (lines 70-86): with no credential
arguments, read the settings file and default `api_compute` and `ca_bundle` to
null when absent; with a partial credential set, `error_and_exit(400)`; with
all three, build the settings mapping from the arguments without touching the
filesystem. -/
def get_settings (args : Args) (fs : FS) (cwd : List Char) : Outcome JVal :=
  if args.username = none ∧ args.password = none ∧ args.api = none then
    (read_settings_file fs cwd args.config_file).bind fun s0 =>
      (liftExc (jHasKey s0 apiComputeK)).bind fun has_compute =>
        let s1 := if has_compute then s0 else jSet s0 apiComputeK .jnull
        (liftExc (jHasKey s1 caBundleK)).bind fun has_bundle =>
          let s2 := if has_bundle then s1 else jSet s1 caBundleK .jnull
          .ok s2
  else if args.username = none ∨ args.password = none ∨ args.api = none then
    error_and_exit 400
  else
    .ok (.jobj
      [ (apiBaseK, optJ (normalize_api_base args.api)),
        (usernameK, optJ args.username),
        (passwordK, optJ args.password),
        (apiComputeK, optJ (normalize_api_compute_base args.api_compute)),
        (caBundleK, optJ args.ca_bundle) ])

/-- How many of the three credential arguments are present (not `None`). -/
def credentialsPresent (args : Args) : Nat :=
  (if args.username = none then 0 else 1)
  + (if args.password = none then 0 else 1)
  + (if args.api = none then 0 else 1)

/-- `PrismaCloudUtility.prompt_for_verification_to_continue` (lines 163-171),
with standard input modelled as the list of available lines (each already
stripped of its newline, as Python's `input()` returns it): when `--yes` was
given the function returns at once consuming nothing; otherwise it consumes
one line and `error_and_exit(400)`s unless that line is exactly `yes` or `y`
(reading at end of input raises `EOFError`). -/
def prompt_for_verification_to_continue (args : Args) (stdin : List (List Char)) :
    Outcome Unit × List (List Char) :=
  if args.yes then (.ok (), stdin)
  else
    match stdin with
    | [] => (.raise .eofError, [])
    | line :: rest =>
      if line = strToL "yes" ∨ line = strToL "y" then (.ok (), rest)
      else (error_and_exit 400, rest)

/-!  List-search helpers (lines 226-297). -/

/-- A mapping with string keys and string values, as the CSV reader produces
and the search helpers consume. -/
abbrev Item := List (List Char × List Char)

/-- First-match lookup in a string-valued mapping. -/
def lookupS : Item → List Char → Option (List Char)
  | [], _ => none
  | (k', v) :: rest, k => if k' = k then some v else lookupS rest k

/-- `PrismaCloudUtility.search_list_value` (lines 227-234): scan for the first
item carrying `field_to_search` with value `search_value`; on a hit return that
item's `field_to_return` value (a `KeyError` if the hit lacks it) and stop;
`None` when nothing matches. -/
def search_list_value (list_to_search : List Item)
    (field_to_search field_to_return search_value : List Char) :
    Except PyErr (Option (List Char)) :=
  match list_to_search with
  | [] => .ok none
  | source_item :: rest =>
    match lookupS source_item field_to_search with
    | some x =>
      if x = search_value then
        match lookupS source_item field_to_return with
        | some r => .ok (some r)
        | none => .error .keyError
      else search_list_value rest field_to_search field_to_return search_value
    | none => search_list_value rest field_to_search field_to_return search_value

/-- `PrismaCloudUtility.search_list_value_lower` (lines 239-247): as
`search_list_value` with both sides of the comparison lower-cased. -/
def search_list_value_lower (list_to_search : List Item)
    (field_to_search field_to_return search_value : List Char) :
    Except PyErr (Option (List Char)) :=
  match list_to_search with
  | [] => .ok none
  | source_item :: rest =>
    match lookupS source_item field_to_search with
    | some x =>
      if toLowerL x = toLowerL search_value then
        match lookupS source_item field_to_return with
        | some r => .ok (some r)
        | none => .error .keyError
      else search_list_value_lower rest field_to_search field_to_return search_value
    | none => search_list_value_lower rest field_to_search field_to_return search_value

/-- `PrismaCloudUtility.search_list_object` (lines 252-259): return the first
item carrying `field_to_search` with value `search_value`, else `None`. -/
def search_list_object (list_to_search : List Item)
    (field_to_search search_value : List Char) : Option Item :=
  match list_to_search with
  | [] => none
  | source_item :: rest =>
    match lookupS source_item field_to_search with
    | some x =>
      if x = search_value then some source_item
      else search_list_object rest field_to_search search_value
    | none => search_list_object rest field_to_search search_value

/-- `PrismaCloudUtility.search_list_object_lower` (lines 264-272): the
case-insensitive variant of `search_list_object`. -/
def search_list_object_lower (list_to_search : List Item)
    (field_to_search search_value : List Char) : Option Item :=
  match list_to_search with
  | [] => none
  | source_item :: rest =>
    match lookupS source_item field_to_search with
    | some x =>
      if toLowerL x = toLowerL search_value then some source_item
      else search_list_object_lower rest field_to_search search_value
    | none => search_list_object_lower rest field_to_search search_value

/-- `PrismaCloudUtility.search_list_list` (lines 277-284): accumulate matching
items into a list — but the loop `break`s after the first hit, so the result
is `[first hit]` or `[]`. -/
def search_list_list (list_to_search : List Item)
    (field_to_search search_value : List Char) : List Item :=
  match list_to_search with
  | [] => []
  | source_item :: rest =>
    match lookupS source_item field_to_search with
    | some x =>
      if x = search_value then [source_item]
      else search_list_list rest field_to_search search_value
    | none => search_list_list rest field_to_search search_value

/-- `PrismaCloudUtility.search_list_list_lower` (lines 289-297): the
case-insensitive variant of `search_list_list`, with the same `break`. -/
def search_list_list_lower (list_to_search : List Item)
    (field_to_search search_value : List Char) : List Item :=
  match list_to_search with
  | [] => []
  | source_item :: rest =>
    match lookupS source_item field_to_search with
    | some x =>
      if toLowerL x = toLowerL search_value then [source_item]
      else search_list_list_lower rest field_to_search search_value
    | none => search_list_list_lower rest field_to_search search_value

/-!  Concrete fixtures for witnesses and counterexamples. -/

/-- An argument set with all three credentials supplied. -/
def argsAll : Args :=
  { username := some (strToL "user"), password := some (strToL "pass"),
    api := some (strToL "https://app.example.com/"),
    api_compute := some (strToL "https://compute.example.com/"),
    ca_bundle := none, config_file := none, yes := false }

/-- An argument set with only the username supplied. -/
def argsOnlyUser : Args :=
  { username := some (strToL "user"), password := none, api := none,
    api_compute := none, ca_bundle := none, config_file := none, yes := false }

/-- An argument set with no credentials supplied. -/
def argsNoCreds : Args :=
  { username := none, password := none, api := none,
    api_compute := none, ca_bundle := none, config_file := none, yes := false }

/-- An empty filesystem. -/
def fs0 : FS := fun _ => .absent

/-- A concrete working directory. -/
def cwd0 : List Char := strToL "/work"

/-- A well-formed current-version settings file lacking the optional
`api_compute` and `ca_bundle` fields. -/
def settingsFileV4 : JVal := .jobj
  [ (verK, .jnum 4),
    (apiBaseK, .jstr (strToL "api.example.com")),
    (usernameK, .jstr (strToL "user")),
    (passwordK, .jstr (strToL "pass")) ]

/-- A filesystem holding `settingsFileV4` at the default settings path. -/
def fsConf : FS := fun p =>
  if p = strToL "/work/pc-settings.conf" then .json settingsFileV4 else .absent

/-- An out-of-date settings file declaring version 1. -/
def settingsFileV1 : JVal := .jobj
  [ (verK, .jnum 1), (usernameK, .jstr (strToL "user")) ]

/-- A filesystem holding `settingsFileV1` at the default settings path. -/
def fsConfV1 : FS := fun p =>
  if p = strToL "/work/pc-settings.conf" then .json settingsFileV1 else .absent

/-- Well-formed, truthy JSON with no `settings_file_version` key. -/
def settingsNoVer : JVal := .jobj [ (usernameK, .jstr (strToL "user")) ]

/-- A filesystem holding `settingsNoVer` at the default settings path. -/
def fsNoVer : FS := fun p =>
  if p = strToL "/work/pc-settings.conf" then .json settingsNoVer else .absent

/-- A second working directory. -/
def cwdH : List Char := strToL "/home"

/-- Truthy JSON carrying only credentials — no version key (C9's example). -/
def settingsCreds : JVal := .jobj
  [ (usernameK, .jstr (strToL "user")),
    (passwordK, .jstr (strToL "pass")),
    (apiBaseK, .jstr (strToL "api.example.com")) ]

/-- A filesystem holding `settingsCreds` at the default settings path under
`cwdH`. -/
def fsCreds : FS := fun p =>
  if p = strToL "/home/pc-settings.conf" then .json settingsCreds else .absent

/-- The field names of the search-helper fixtures. -/
def kName : List Char := strToL "name"

def kId : List Char := strToL "id"

/-- An item whose `name` field holds the upper-case value `ABC`. -/
def itemABC : Item := [ (kName, strToL "ABC"), (kId, strToL "1") ]

/-- A second item with the same `name` value. -/
def itemABC2 : Item := [ (kName, strToL "ABC"), (kId, strToL "2") ]

/-!  Theorems. -/

/- Helper lemmas about `rstrip`. -/

theorem head_dropWhile_false (p : Char → Bool) :
    ∀ (l : List Char) (a : Char), (l.dropWhile p).head? = some a → p a = false := by
  intro l
  induction l with
  | nil => intro a h; simp [List.dropWhile] at h
  | cons c cs ih =>
    intro a h
    by_cases hc : p c
    · rw [List.dropWhile_cons_of_pos hc] at h
      exact ih a h
    · rw [List.dropWhile_cons_of_neg hc] at h
      simp only [List.head?_cons, Option.some.injEq] at h
      subst h
      exact Bool.not_eq_true _ |>.mp hc

theorem rstrip_getLast_ne (s : List Char) (c : Char) :
    (rstrip s c).getLast? ≠ some c := by
  intro h
  rw [rstrip, List.getLast?_reverse] at h
  have hf := head_dropWhile_false (fun x => x == c) _ _ h
  simp at hf

/-- C1: the claim describes scheme removal as stripping a `http://`/`https://`
*prefix*; the code removes every occurrence of those substrings (after the
`app`/`redlock` substitutions).  At `"example.com/http://a"` the code removes a
mid-string `http://`; at `"ahttp://pp"` the mid-string removal manufactures an
`app` that the code does *not* substitute (substitutions happen first), while
the claim's reading leaves both inputs unchanged. -/
theorem C1_counterexample :
    normalize_api_base (some (strToL "example.com/http://a")) = some (strToL "example.com/a") ∧
    normalize_api_base_claimed (some (strToL "example.com/http://a")) = some (strToL "example.com/http://a") ∧
    normalize_api_compute_base (some (strToL "example.com/http://a")) = some (strToL "example.com/a") ∧
    normalize_api_compute_base_claimed (some (strToL "example.com/http://a")) = some (strToL "example.com/http://a") ∧
    normalize_api_base (some (strToL "ahttp://pp")) = some (strToL "app") ∧
    normalize_api_base_claimed (some (strToL "ahttp://pp")) = some (strToL "ahttp://pp") := by
  refine ⟨rfl, rfl, rfl, rfl, rfl, rfl⟩

/-- C1 (amended): `normalize_api_base` returns `None` on null/empty input and
otherwise lower-cases, substitutes `app`→`api` and `redlock`→`prismacloud`,
removes every occurrence of `http://` and `https://`, and strips trailing `/`;
`normalize_api_compute_base` is identical without the substitutions; and the
claim's concrete examples hold. -/
theorem C1_normalize_amended :
    (∀ api, normalize_api_base api = normalize_api_base_amended_desc api) ∧
    (∀ api, normalize_api_compute_base api = normalize_api_compute_base_amended_desc api) ∧
    normalize_api_base (some (strToL "https://app.example.com/")) = some (strToL "api.example.com") ∧
    normalize_api_base (some (strToL "HTTP://redlock.io")) = some (strToL "prismacloud.io") ∧
    normalize_api_compute_base (some (strToL "https://Compute.Example.com/")) = some (strToL "compute.example.com") ∧
    normalize_api_base none = none ∧
    normalize_api_base (some []) = none ∧
    normalize_api_compute_base none = none ∧
    normalize_api_compute_base (some []) = none := by
  refine ⟨fun _ => rfl, fun _ => rfl, rfl, rfl, rfl, rfl, rfl, rfl, rfl⟩

/-- C10: `"https:///"` is non-null and non-empty yet both normalizers send it
to the *empty string*, not to null; null arises exactly for null/empty input;
and a non-null result never ends in `/`. -/
theorem C10_empty_string_and_no_trailing_slash :
    (∀ api s, normalize_api_base api = some s → s.getLast? ≠ some '/') ∧
    (∀ api s, normalize_api_compute_base api = some s → s.getLast? ≠ some '/') ∧
    (∀ api, normalize_api_base api = none ↔ api = none ∨ api = some []) ∧
    (∀ api, normalize_api_compute_base api = none ↔ api = none ∨ api = some []) ∧
    normalize_api_base (some (strToL "https:///")) = some [] ∧
    normalize_api_compute_base (some (strToL "https:///")) = some [] := by
  refine ⟨?_, ?_, ?_, ?_, rfl, rfl⟩
  · intro api s h
    match api with
    | none => exact absurd h (by simp [normalize_api_base])
    | some t =>
      rw [normalize_api_base] at h
      split at h
      · exact absurd h (by simp)
      · rw [Option.some.injEq] at h
        rw [← h]
        exact rstrip_getLast_ne _ _
  · intro api s h
    match api with
    | none => exact absurd h (by simp [normalize_api_compute_base])
    | some t =>
      rw [normalize_api_compute_base] at h
      split at h
      · exact absurd h (by simp)
      · rw [Option.some.injEq] at h
        rw [← h]
        exact rstrip_getLast_ne _ _
  · intro api
    match api with
    | none => simp [normalize_api_base]
    | some t =>
      cases t with
      | nil => simp [normalize_api_base]
      | cons c cs => simp [normalize_api_base]
  · intro api
    match api with
    | none => simp [normalize_api_compute_base]
    | some t =>
      cases t with
      | nil => simp [normalize_api_compute_base]
      | cons c cs => simp [normalize_api_compute_base]

/-- C10 witness: the no-trailing-slash property applied at a concrete input. -/
theorem C10_witness :
    (strToL "api.example.com").getLast? ≠ some '/' :=
  C10_empty_string_and_no_trailing_slash.1 (some (strToL "https://api.example.com/"))
    (strToL "api.example.com") rfl

/-!  Association-list and version-check lemmas. -/

theorem lookupA_setA_self (l : List (List Char × JVal)) (k : List Char) (v : JVal) :
    lookupA (setA l k v) k = some v := by
  induction l with
  | nil => simp [setA, lookupA]
  | cons p rest ih =>
    obtain ⟨k', v'⟩ := p
    by_cases h : k' = k
    · simp [setA, h, lookupA]
    · simp [setA, h, lookupA, ih]

theorem lookupA_setA_ne (l : List (List Char × JVal)) (k k' : List Char) (v : JVal)
    (h : k' ≠ k) : lookupA (setA l k v) k' = lookupA l k' := by
  induction l with
  | nil =>
    have h2 : ¬ (k = k') := fun e => h e.symm
    simp [setA, lookupA, h2]
  | cons p rest ih =>
    obtain ⟨k2, v2⟩ := p
    by_cases e : k2 = k
    · subst e
      have h2 : ¬ (k2 = k') := fun e2 => h e2.symm
      simp [setA, lookupA, h2]
    · simp [setA, lookupA, e, ih]

theorem jIsNum_false_of_ne (x : JVal) (k : Int) (h : x ≠ .jnum k) :
    jIsNum x k = false := by
  cases x with
  | jnum n =>
    have hn : n ≠ k := fun e => h (by rw [e])
    simp [jIsNum, hn]
  | jnull => rfl
  | jbool b => rfl
  | jstr s => rfl
  | jarr l => rfl
  | jobj l => rfl

/-- C2: writing the settings file and reading it back on the same path yields
the record `write_settings_file` derived from the arguments — version stamped
to the expected constant 4, `apiBase`/`api_compute` normalized, and
`username`/`password`/`ca_bundle` verbatim. -/
theorem C2_roundtrip (args : Args) (fs : FS) (cwd : List Char)
    (u pw a : List Char)
    (hu : args.username = some u) (hp : args.password = some pw)
    (ha : args.api = some a) :
    read_settings_file (write_settings_file args fs cwd) cwd args.config_file =
      .ok (.jobj
        [ (verK, .jnum 4),
          (apiBaseK, optJ (normalize_api_base (some a))),
          (usernameK, .jstr u),
          (passwordK, .jstr pw),
          (apiComputeK, optJ (normalize_api_compute_base args.api_compute)),
          (caBundleK, optJ args.ca_bundle) ]) := by
  simp only [read_settings_file, write_settings_file, write_json_file, read_json_file,
    resolvedKey, hu, hp, ha, optJ, FileData.isFile, Outcome.bind, truthy,
    jGet, lookupA, jIsNum, DEFAULT_SETTINGS_FILE_VERSION, error_and_exit,
    eq_self_iff_true, if_true, ite_true, List.isEmpty, Bool.not_false, beq_self_eq_true]

/-- C2 witness: the round trip at a concrete argument set on an empty
filesystem. -/
theorem C2_roundtrip_witness :
    read_settings_file (write_settings_file argsAll fs0 cwd0) cwd0 argsAll.config_file =
      .ok (.jobj
        [ (verK, .jnum 4),
          (apiBaseK, optJ (normalize_api_base (some (strToL "https://app.example.com/")))),
          (usernameK, .jstr (strToL "user")),
          (passwordK, .jstr (strToL "pass")),
          (apiComputeK, optJ (normalize_api_compute_base (some (strToL "https://compute.example.com/")))),
          (caBundleK, optJ argsAll.ca_bundle) ]) :=
  C2_roundtrip argsAll fs0 cwd0 _ _ _ rfl rfl rfl

/-- C3: an argument set supplying exactly one or exactly two of the three
credential arguments makes `get_settings` call `error_and_exit(400)`, so the
process terminates with the non-zero status 1 and no record is returned. -/
theorem C3_missing_credentials_exit (args : Args) (fs : FS) (cwd : List Char)
    (h : credentialsPresent args = 1 ∨ credentialsPresent args = 2) :
    get_settings args fs cwd = .exit 400 1 := by
  cases hu : args.username <;> cases hp : args.password <;> cases ha : args.api <;>
    simp_all [credentialsPresent, get_settings, error_and_exit]

/-- C3 witness: supplying only the username terminates with status 1. -/
theorem C3_missing_credentials_witness :
    get_settings argsOnlyUser fs0 cwd0 = .exit 400 1 :=
  C3_missing_credentials_exit argsOnlyUser fs0 cwd0 (Or.inl (by decide))

/-- C5: with all three credential arguments present, `get_settings` builds the
record from the arguments alone — URLs normalized, credentials and CA bundle
verbatim — and its result does not depend on the filesystem at all: no file is
read. -/
theorem C5_args_only_no_file_read (args : Args) (fs fs' : FS) (cwd : List Char)
    (u pw a : List Char)
    (hu : args.username = some u) (hp : args.password = some pw)
    (ha : args.api = some a) :
    get_settings args fs cwd =
      .ok (.jobj
        [ (apiBaseK, optJ (normalize_api_base (some a))),
          (usernameK, .jstr u),
          (passwordK, .jstr pw),
          (apiComputeK, optJ (normalize_api_compute_base args.api_compute)),
          (caBundleK, optJ args.ca_bundle) ]) ∧
    get_settings args fs cwd = get_settings args fs' cwd := by
  constructor <;> simp [get_settings, hu, hp, ha, optJ]

/-- C5 witness: the argument-only path at a concrete argument set, compared
across two different filesystems. -/
theorem C5_args_only_witness :
    get_settings argsAll fs0 cwd0 =
      .ok (.jobj
        [ (apiBaseK, optJ (normalize_api_base (some (strToL "https://app.example.com/")))),
          (usernameK, .jstr (strToL "user")),
          (passwordK, .jstr (strToL "pass")),
          (apiComputeK, optJ (normalize_api_compute_base (some (strToL "https://compute.example.com/")))),
          (caBundleK, optJ argsAll.ca_bundle) ]) ∧
    get_settings argsAll fs0 cwd0 = get_settings argsAll fsConf cwd0 :=
  C5_args_only_no_file_read argsAll fs0 fsConf cwd0 _ _ _ rfl rfl rfl

theorem search_list_object_eq_find (l : List Item) (f v : List Char) :
    search_list_object l f v = l.find? (fun it => decide (lookupS it f = some v)) := by
  induction l with
  | nil => rfl
  | cons it rest ih =>
    cases hx : lookupS it f with
    | none => simp [search_list_object, List.find?, hx, ih]
    | some x =>
      by_cases e : x = v
      · subst e
        simp [search_list_object, List.find?, hx]
      · simp [search_list_object, List.find?, hx, e, ih]

theorem search_list_object_lower_eq_find (l : List Item) (f v : List Char) :
    search_list_object_lower l f v =
      l.find? (fun it => decide ((lookupS it f).map toLowerL = some (toLowerL v))) := by
  induction l with
  | nil => rfl
  | cons it rest ih =>
    cases hx : lookupS it f with
    | none => simp [search_list_object_lower, List.find?, hx, ih]
    | some x =>
      by_cases e : toLowerL x = toLowerL v
      · simp [search_list_object_lower, List.find?, hx, e]
      · simp [search_list_object_lower, List.find?, hx, e, ih]

theorem search_list_list_eq_object (l : List Item) (f v : List Char) :
    search_list_list l f v = (search_list_object l f v).toList := by
  induction l with
  | nil => rfl
  | cons it rest ih =>
    cases hx : lookupS it f with
    | none => simp [search_list_list, search_list_object, hx, ih]
    | some x =>
      by_cases e : x = v
      · simp [search_list_list, search_list_object, hx, e, Option.toList]
      · simp [search_list_list, search_list_object, hx, e, ih]

theorem search_list_list_lower_eq_object (l : List Item) (f v : List Char) :
    search_list_list_lower l f v = (search_list_object_lower l f v).toList := by
  induction l with
  | nil => rfl
  | cons it rest ih =>
    cases hx : lookupS it f with
    | none => simp [search_list_list_lower, search_list_object_lower, hx, ih]
    | some x =>
      by_cases e : toLowerL x = toLowerL v
      · simp [search_list_list_lower, search_list_object_lower, hx, e, Option.toList]
      · simp [search_list_list_lower, search_list_object_lower, hx, e, ih]

theorem search_list_value_eq_object (l : List Item) (f fr v : List Char) :
    search_list_value l f fr v =
      (match search_list_object l f v with
       | none => Except.ok none
       | some it =>
         match lookupS it fr with
         | some r => Except.ok (some r)
         | none => Except.error PyErr.keyError) := by
  induction l with
  | nil => rfl
  | cons it rest ih =>
    cases hx : lookupS it f with
    | none => simp [search_list_value, search_list_object, hx, ih]
    | some x =>
      by_cases e : x = v
      · simp [search_list_value, search_list_object, hx, e]
      · simp [search_list_value, search_list_object, hx, e, ih]

theorem search_list_value_lower_eq_object (l : List Item) (f fr v : List Char) :
    search_list_value_lower l f fr v =
      (match search_list_object_lower l f v with
       | none => Except.ok none
       | some it =>
         match lookupS it fr with
         | some r => Except.ok (some r)
         | none => Except.error PyErr.keyError) := by
  induction l with
  | nil => rfl
  | cons it rest ih =>
    cases hx : lookupS it f with
    | none => simp [search_list_value_lower, search_list_object_lower, hx, ih]
    | some x =>
      by_cases e : toLowerL x = toLowerL v
      · simp [search_list_value_lower, search_list_object_lower, hx, e]
      · simp [search_list_value_lower, search_list_object_lower, hx, e, ih]

/-- C8: every search helper is a first-match linear scan — the object
variants agree with `List.find?` on the corresponding match predicate, the
list variants return at most that first match (empty when nothing matches),
and the value variants index the first match with the return field; the
case-insensitive variants match across differing casing where the
case-sensitive ones do not. -/
theorem C8_search_helpers :
    (∀ (l : List Item) (f v : List Char),
      search_list_object l f v = l.find? (fun it => decide (lookupS it f = some v))) ∧
    (∀ (l : List Item) (f v : List Char),
      search_list_object_lower l f v =
        l.find? (fun it => decide ((lookupS it f).map toLowerL = some (toLowerL v)))) ∧
    (∀ (l : List Item) (f v : List Char),
      search_list_list l f v = (search_list_object l f v).toList) ∧
    (∀ (l : List Item) (f v : List Char),
      search_list_list_lower l f v = (search_list_object_lower l f v).toList) ∧
    (∀ (l : List Item) (f fr v : List Char),
      search_list_value l f fr v =
        (match search_list_object l f v with
         | none => Except.ok none
         | some it =>
           match lookupS it fr with
           | some r => Except.ok (some r)
           | none => Except.error PyErr.keyError)) ∧
    (∀ (l : List Item) (f fr v : List Char),
      search_list_value_lower l f fr v =
        (match search_list_object_lower l f v with
         | none => Except.ok none
         | some it =>
           match lookupS it fr with
           | some r => Except.ok (some r)
           | none => Except.error PyErr.keyError)) ∧
    search_list_object_lower [itemABC] kName (strToL "abc") = some itemABC ∧
    search_list_object [itemABC] kName (strToL "abc") = none ∧
    search_list_value_lower [itemABC] kName kId (strToL "abc") = .ok (some (strToL "1")) ∧
    search_list_value [itemABC] kName kId (strToL "abc") = .ok none ∧
    search_list_list_lower [itemABC] kName (strToL "abc") = [itemABC] ∧
    search_list_list [itemABC] kName (strToL "abc") = [] ∧
    search_list_object [itemABC, itemABC2] kName (strToL "ABC") = some itemABC ∧
    search_list_list [itemABC, itemABC2] kName (strToL "ABC") = [itemABC] ∧
    search_list_value [itemABC, itemABC2] kName kId (strToL "ABC") = .ok (some (strToL "1")) :=
  ⟨search_list_object_eq_find, search_list_object_lower_eq_find, search_list_list_eq_object,
   search_list_list_lower_eq_object, search_list_value_eq_object, search_list_value_lower_eq_object,
   rfl, rfl, rfl, rfl, rfl, rfl, rfl, rfl, rfl⟩

/-- C4: with no credential arguments, `get_settings` loads the record from the
file named by `config_file` — default name joined to the working directory,
verbatim when the name contains a path separator, otherwise joined to the
working directory — and fills `api_compute` and `ca_bundle` with null exactly
when they are missing from the file, leaving every other field as loaded. -/
theorem C4_settings_from_file :
    (∀ cwd, user_or_default_settings_file cwd none = pathJoin cwd DEFAULT_SETTINGS_FILE_NAME) ∧
    (∀ cwd name, '/' ∈ name → user_or_default_settings_file cwd (some name) = name) ∧
    (∀ cwd name, '/' ∉ name → user_or_default_settings_file cwd (some name) = pathJoin cwd name) ∧
    (∀ (args : Args) (fs : FS) (cwd : List Char) (fields : List (List Char × JVal)),
      args.username = none → args.password = none → args.api = none →
      read_settings_file fs cwd args.config_file = .ok (.jobj fields) →
      ∃ fields',
        get_settings args fs cwd = .ok (.jobj fields') ∧
        lookupA fields' apiComputeK = some ((lookupA fields apiComputeK).getD .jnull) ∧
        lookupA fields' caBundleK = some ((lookupA fields caBundleK).getD .jnull) ∧
        ∀ k, k ≠ apiComputeK → k ≠ caBundleK → lookupA fields' k = lookupA fields k) ∧
    get_settings argsNoCreds fsConf cwd0 =
      .ok (.jobj
        [ (verK, .jnum 4),
          (apiBaseK, .jstr (strToL "api.example.com")),
          (usernameK, .jstr (strToL "user")),
          (passwordK, .jstr (strToL "pass")),
          (apiComputeK, .jnull),
          (caBundleK, .jnull) ]) := by
  refine ⟨fun cwd => rfl, ?_, ?_, ?_, rfl⟩
  · intro cwd name h
    simp [user_or_default_settings_file, h]
  · intro cwd name h
    simp [user_or_default_settings_file, h]
  · intro args fs cwd fields hu hp ha hread
    have hBC : caBundleK ≠ apiComputeK := by decide
    have hCB : apiComputeK ≠ caBundleK := by decide
    simp only [get_settings, hu, hp, ha, hread, eq_self_iff_true, and_self, ite_true, if_true,
      Outcome.bind, jHasKey, liftExc, jSet]
    cases hc : lookupA fields apiComputeK with
    | some x =>
      simp only [hc, Option.isSome_some, eq_self_iff_true, ite_true, if_true,
        jHasKey, liftExc, Outcome.bind, jSet]
      cases hb : lookupA fields caBundleK with
      | some y =>
        simp only [hb, Option.isSome_some, eq_self_iff_true, ite_true, if_true]
        refine ⟨fields, rfl, ?_, ?_, fun k _ _ => rfl⟩
        · rw [hc]
          rfl
        · rw [hb]
          rfl
      | none =>
        simp only [hb, Option.isSome_none, Bool.false_eq_true, ite_false, if_false]
        refine ⟨setA fields caBundleK .jnull, rfl, ?_, ?_, ?_⟩
        · rw [lookupA_setA_ne _ _ _ _ hCB, hc]
          rfl
        · rw [lookupA_setA_self]
          rfl
        · intro k hk1 hk2
          rw [lookupA_setA_ne _ _ _ _ hk2]
    | none =>
      simp only [hc, Option.isSome_none, Bool.false_eq_true, ite_false, if_false,
        jHasKey, liftExc, Outcome.bind, jSet]
      rw [lookupA_setA_ne _ _ _ _ hBC]
      cases hb : lookupA fields caBundleK with
      | some y =>
        simp only [hb, Option.isSome_some, eq_self_iff_true, ite_true, if_true]
        refine ⟨setA fields apiComputeK .jnull, rfl, ?_, ?_, ?_⟩
        · rw [lookupA_setA_self]
          rfl
        · rw [lookupA_setA_ne _ _ _ _ hBC, hb]
          rfl
        · intro k hk1 hk2
          rw [lookupA_setA_ne _ _ _ _ hk1]
      | none =>
        simp only [hb, Option.isSome_none, Bool.false_eq_true, ite_false, if_false, jSet]
        refine ⟨setA (setA fields apiComputeK .jnull) caBundleK .jnull, rfl, ?_, ?_, ?_⟩
        · rw [lookupA_setA_ne _ _ _ _ hCB, lookupA_setA_self]
          rfl
        · rw [lookupA_setA_self]
          rfl
        · intro k hk1 hk2
          rw [lookupA_setA_ne _ _ _ _ hk2, lookupA_setA_ne _ _ _ _ hk1]

/-- C4 witness: loading a version-4 settings file that lacks `api_compute`
and `ca_bundle` fills both with null. -/
theorem C4_settings_from_file_witness :
    ∃ fields',
      get_settings argsNoCreds fsConf cwd0 = .ok (.jobj fields') ∧
      lookupA fields' apiComputeK =
        some ((lookupA
          [ (verK, JVal.jnum 4),
            (apiBaseK, .jstr (strToL "api.example.com")),
            (usernameK, .jstr (strToL "user")),
            (passwordK, .jstr (strToL "pass")) ] apiComputeK).getD .jnull) ∧
      lookupA fields' caBundleK =
        some ((lookupA
          [ (verK, JVal.jnum 4),
            (apiBaseK, .jstr (strToL "api.example.com")),
            (usernameK, .jstr (strToL "user")),
            (passwordK, .jstr (strToL "pass")) ] caBundleK).getD .jnull) ∧
      ∀ k, k ≠ apiComputeK → k ≠ caBundleK →
        lookupA fields' k =
          lookupA
            [ (verK, JVal.jnum 4),
              (apiBaseK, .jstr (strToL "api.example.com")),
              (usernameK, .jstr (strToL "user")),
              (passwordK, .jstr (strToL "pass")) ] k :=
  C4_settings_from_file.2.2.2.1 argsNoCreds fsConf cwd0 _ rfl rfl rfl rfl
/-- C6: a file holding well-formed, truthy JSON without the
`settings_file_version` key makes `read_settings_file` raise an uncaught
`KeyError` — a fourth failure mode that does not print the diagnostic nor exit
with status 1, so the failure modes are not "exactly three". -/
theorem C6_counterexample :
    read_settings_file fsNoVer cwd0 none = .raise .keyError := rfl

/-- C6 (amended): `read_settings_file` has three diagnostic-exit failure
modes, each terminating with process status 1 — missing file, unreadable or
falsy contents, and a present-but-wrong `settings_file_version` (version 1
included) — and additionally raises an uncaught key-lookup error on truthy
well-formed data lacking that key; on the success path the caller receives the
full loaded record. -/
theorem C6_failure_modes :
    (∀ (fs : FS) (cwd : List Char) (cfg : Option (List Char)),
      fs (resolvedKey cwd (user_or_default_settings_file cwd cfg)) = .absent →
      read_settings_file fs cwd cfg = .exit 400 1) ∧
    (∀ (fs : FS) (cwd : List Char) (cfg : Option (List Char)),
      fs (resolvedKey cwd (user_or_default_settings_file cwd cfg)) = .invalid →
      read_settings_file fs cwd cfg = .exit 500 1) ∧
    (∀ (fs : FS) (cwd : List Char) (cfg : Option (List Char)) (v : JVal),
      fs (resolvedKey cwd (user_or_default_settings_file cwd cfg)) = .json v →
      truthy v = false →
      read_settings_file fs cwd cfg = .exit 500 1) ∧
    (∀ (fs : FS) (cwd : List Char) (cfg : Option (List Char)) (v x : JVal),
      fs (resolvedKey cwd (user_or_default_settings_file cwd cfg)) = .json v →
      truthy v = true →
      jGet v verK = .ok x →
      x ≠ .jnum 4 →
      read_settings_file fs cwd cfg = .exit 500 1) ∧
    (∀ (fs : FS) (cwd : List Char) (cfg : Option (List Char)) (v : JVal) (e : PyErr),
      fs (resolvedKey cwd (user_or_default_settings_file cwd cfg)) = .json v →
      truthy v = true →
      jGet v verK = .error e →
      read_settings_file fs cwd cfg = .raise e) ∧
    (∀ (fs : FS) (cwd : List Char) (cfg : Option (List Char)) (v : JVal),
      fs (resolvedKey cwd (user_or_default_settings_file cwd cfg)) = .json v →
      truthy v = true →
      jGet v verK = .ok (.jnum 4) →
      read_settings_file fs cwd cfg = .ok v) ∧
    read_settings_file fsConfV1 cwd0 none = .exit 500 1 := by
  refine ⟨?_, ?_, ?_, ?_, ?_, ?_, rfl⟩
  · intro fs cwd cfg h
    simp only [read_settings_file, read_json_file, resolvedKey] at h ⊢
    simp only [h, FileData.isFile, Bool.false_eq_true, if_false, ite_false, error_and_exit]
  · intro fs cwd cfg h
    simp only [read_settings_file, read_json_file, resolvedKey] at h ⊢
    simp only [h, FileData.isFile, eq_self_iff_true, if_true, ite_true,
      Outcome.bind, error_and_exit]
  · intro fs cwd cfg v h ht
    simp only [read_settings_file, read_json_file, resolvedKey] at h ⊢
    simp only [h, FileData.isFile, eq_self_iff_true, if_true, ite_true, Outcome.bind,
      ht, Bool.false_eq_true, if_false, ite_false, error_and_exit]
  · intro fs cwd cfg v x h ht hg hx
    have hIs : jIsNum x DEFAULT_SETTINGS_FILE_VERSION = false :=
      jIsNum_false_of_ne x 4 hx
    simp only [read_settings_file, read_json_file, resolvedKey] at h ⊢
    simp only [h, FileData.isFile, eq_self_iff_true, if_true, ite_true, Outcome.bind,
      ht, hg, hIs, Bool.false_eq_true, if_false, ite_false, error_and_exit]
  · intro fs cwd cfg v e h ht hg
    simp only [read_settings_file, read_json_file, resolvedKey] at h ⊢
    simp only [h, FileData.isFile, eq_self_iff_true, if_true, ite_true, Outcome.bind,
      ht, hg]
  · intro fs cwd cfg v h ht hg
    simp only [read_settings_file, read_json_file, resolvedKey] at h ⊢
    simp only [h, FileData.isFile, eq_self_iff_true, if_true, ite_true, Outcome.bind,
      ht, hg, jIsNum, DEFAULT_SETTINGS_FILE_VERSION, beq_self_eq_true]

/-- C6 witness: the missing-file mode at a concrete empty filesystem. -/
theorem C6_failure_modes_witness :
    read_settings_file fs0 cwd0 none = .exit 400 1 :=
  C6_failure_modes.1 fs0 cwd0 none rfl

/-- C7: with the skip flag set the prompt returns at once and consumes no
input; otherwise it consumes one line and exits fatally (status 1) unless that
exact, case-sensitive line is `yes` or `y`. -/
theorem C7_prompt_behavior :
    (∀ (args : Args) (stdin : List (List Char)),
      prompt_for_verification_to_continue { args with yes := true } stdin = (.ok (), stdin)) ∧
    (∀ (args : Args) (line : List Char) (rest : List (List Char)),
      prompt_for_verification_to_continue { args with yes := false } (line :: rest) =
        (if line = strToL "yes" ∨ line = strToL "y" then (.ok (), rest)
         else (.exit 400 1, rest))) := by
  constructor
  · intro args stdin
    rfl
  · intro args line rest
    by_cases h : line = strToL "yes" ∨ line = strToL "y" <;>
      simp [prompt_for_verification_to_continue, h, error_and_exit]

/-- C9: on a well-formed, truthy settings file holding only
username/password/apiBase, the unguarded `settings['settings_file_version']`
lookup raises an uncaught `KeyError` instead of reaching the diagnostic
fatal-exit path. -/
theorem C9_missing_version_key_raises :
    read_settings_file fsCreds cwdH none = .raise .keyError := rfl
